import Mathlib

/-!
Shallow embedding of `src/contracts/interaction.rs` from the `wasmify_rs`
repository, together with theorems settling the specification claims about
its two entry points, `call_contract_function` and `fetch_contract_data`.

Rust `Result<String, InteractionError>` is embedded as
`Except InteractionError String`; Rust `&str` as `String`; `Vec<String>` as
`List String`; `u64` as `Nat` (the gas limit is never inspected, so no
overflow arithmetic arises). Logging macros (`info!`, `error!`) do not
affect the returned value and are not part of the embedding.
-/

namespace WasmifyRs

/-- Represents errors that may occur during contract interactions
(`enum InteractionError` in `src/contracts/interaction.rs`, lines 4-12). -/
inductive InteractionError where
  /-- The provided contract address is invalid or empty. -/
  | InvalidContractAddress
  /-- The function name provided is invalid or empty. -/
  | InvalidFunctionName
  /-- The requested data key was not found. -/
  | DataKeyNotFound
deriving DecidableEq, Repr

/-- The source-code name of each `InteractionError` constructor, as spelled
in `src/contracts/interaction.rs`. Used to state claims from the spec that
refer to an error kind by name. -/
def InteractionError.kindName : InteractionError → String
  | .InvalidContractAddress => "InvalidContractAddress"
  | .InvalidFunctionName => "InvalidFunctionName"
  | .DataKeyNotFound => "DataKeyNotFound"

/-- Calls a function on a smart contract
(`call_contract_function` in `src/contracts/interaction.rs`, lines 25-47):
rejects an empty contract address, then an empty function name, and
otherwise returns the canned success message. -/
def call_contract_function (contract_address : String) (function_name : String)
    (_params : List String) (gas_limit : Nat) : Except InteractionError String :=
  if contract_address.isEmpty then
    Except.error InteractionError.InvalidContractAddress
  else if function_name.isEmpty then
    Except.error InteractionError.InvalidFunctionName
  else
    Except.ok "Function call executed successfully."

/-- Fetches data from a smart contract
(`fetch_contract_data` in `src/contracts/interaction.rs`, lines 58-75):
rejects an empty contract address, then an empty data key, and otherwise
returns the canned success message. -/
def fetch_contract_data (contract_address : String) (data_key : String) :
    Except InteractionError String :=
  if contract_address.isEmpty then
    Except.error InteractionError.InvalidContractAddress
  else if data_key.isEmpty then
    Except.error InteractionError.DataKeyNotFound
  else
    Except.ok "Data fetched successfully."

theorem isEmpty_eq_false_of_ne (s : String) (h : s ≠ "") : s.isEmpty = false := by
  rcases hb : s.isEmpty with _ | _
  · rfl
  · exact absurd (String.isEmpty_iff s |>.mp hb) h

theorem isEmpty_eq_true_iff (s : String) : s.isEmpty = true ↔ s = "" :=
  String.isEmpty_iff s

theorem empty_isEmpty : ("" : String).isEmpty = true := by decide

end WasmifyRs

namespace WasmifyRs

/-- C1: `call_contract_function` errors exactly when its contract address or
function name is empty, and `fetch_contract_data` errors exactly when its
contract address or data key is empty; in every error case the returned
error kind matches the offending input (the address-flavoured kind for an
empty address, the name-flavoured kind for an empty name, the key-flavoured
kind for an empty key), for all string inputs, any params list and any gas
limit. -/
theorem call_and_fetch_error_iff_empty_input
    (a fn k : String) (ps : List String) (g : Nat) :
    ((call_contract_function a fn ps g).isOk = false ↔ (a = "" ∨ fn = ""))
    ∧ ((fetch_contract_data a k).isOk = false ↔ (a = "" ∨ k = ""))
    ∧ (a = "" →
        call_contract_function a fn ps g =
          Except.error InteractionError.InvalidContractAddress)
    ∧ (a ≠ "" → fn = "" →
        call_contract_function a fn ps g =
          Except.error InteractionError.InvalidFunctionName)
    ∧ (a = "" →
        fetch_contract_data a k =
          Except.error InteractionError.InvalidContractAddress)
    ∧ (a ≠ "" → k = "" →
        fetch_contract_data a k =
          Except.error InteractionError.DataKeyNotFound) := by
  refine ⟨?_, ?_, ?_, ?_, ?_, ?_⟩
  · unfold call_contract_function
    rcases ha : a.isEmpty with _ | _ <;> rcases hf : fn.isEmpty with _ | _ <;>
      simp_all [isEmpty_eq_true_iff, Except.isOk, Except.toBool] <;>
      simp_all [← String.isEmpty_iff, ha, hf]
  · unfold fetch_contract_data
    rcases ha : a.isEmpty with _ | _ <;> rcases hk : k.isEmpty with _ | _ <;>
      simp_all [isEmpty_eq_true_iff, Except.isOk, Except.toBool] <;>
      simp_all [← String.isEmpty_iff, ha, hk]
  · intro ha
    simp [call_contract_function, ha, empty_isEmpty]
  · intro ha hf
    simp [call_contract_function, isEmpty_eq_false_of_ne a ha, hf, empty_isEmpty]
  · intro ha
    simp [fetch_contract_data, ha, empty_isEmpty]
  · intro ha hk
    simp [fetch_contract_data, isEmpty_eq_false_of_ne a ha, hk, empty_isEmpty]

/-- Witness for C1: the characterization instantiated at concrete inputs. -/
theorem call_and_fetch_error_iff_empty_input_witness :
    ((call_contract_function "0xABC" "transfer" ["5"] 1000).isOk = false
        ↔ (("0xABC" : String) = "" ∨ ("transfer" : String) = ""))
    ∧ ((fetch_contract_data "0xABC" "balance").isOk = false
        ↔ (("0xABC" : String) = "" ∨ ("balance" : String) = ""))
    ∧ (("0xABC" : String) = "" →
        call_contract_function "0xABC" "transfer" ["5"] 1000 =
          Except.error InteractionError.InvalidContractAddress)
    ∧ (("0xABC" : String) ≠ "" → ("transfer" : String) = "" →
        call_contract_function "0xABC" "transfer" ["5"] 1000 =
          Except.error InteractionError.InvalidFunctionName)
    ∧ (("0xABC" : String) = "" →
        fetch_contract_data "0xABC" "balance" =
          Except.error InteractionError.InvalidContractAddress)
    ∧ (("0xABC" : String) ≠ "" → ("balance" : String) = "" →
        fetch_contract_data "0xABC" "balance" =
          Except.error InteractionError.DataKeyNotFound) :=
  call_and_fetch_error_iff_empty_input "0xABC" "transfer" "balance" ["5"] 1000

/-- C2: with a non-empty contract address and non-empty function name (resp.
data key), `call_contract_function` returns
`Ok "Function call executed successfully."` and `fetch_contract_data`
returns `Ok "Data fetched successfully."`, for any params and gas limit. -/
theorem call_and_fetch_success_on_nonempty
    (a fn k : String) (ps : List String) (g : Nat)
    (ha : a ≠ "") (hfn : fn ≠ "") (hk : k ≠ "") :
    call_contract_function a fn ps g =
        Except.ok "Function call executed successfully."
    ∧ fetch_contract_data a k = Except.ok "Data fetched successfully." := by
  constructor
  · simp [call_contract_function, isEmpty_eq_false_of_ne a ha,
      isEmpty_eq_false_of_ne fn hfn]
  · simp [fetch_contract_data, isEmpty_eq_false_of_ne a ha,
      isEmpty_eq_false_of_ne k hk]

/-- Witness for C2 at concrete non-empty inputs. -/
theorem call_and_fetch_success_on_nonempty_witness :
    call_contract_function "0xABC" "transfer" ["7"] 1000 =
        Except.ok "Function call executed successfully."
    ∧ fetch_contract_data "0xABC" "balance" =
        Except.ok "Data fetched successfully." :=
  call_and_fetch_success_on_nonempty "0xABC" "transfer" "balance" ["7"] 1000
    (by decide) (by decide) (by decide)

/-- C3 counterexample: at the concrete input `("0xABC", "")`,
`fetch_contract_data` returns the error whose source-code kind is
`DataKeyNotFound`, not one named `InvalidDataKey`; no returned error kind is
named `InvalidDataKey`, so the claim as stated is false. -/
theorem fetch_empty_key_not_invalid_data_key :
    fetch_contract_data "0xABC" "" =
        Except.error InteractionError.DataKeyNotFound
    ∧ ¬ (∃ e : InteractionError,
          fetch_contract_data "0xABC" "" = Except.error e
          ∧ e.kindName = "InvalidDataKey") := by
  constructor
  · rfl
  · rintro ⟨e, he, hname⟩
    cases e <;> simp_all [InteractionError.kindName, fetch_contract_data]

/-- C3 amended: for every non-empty contract address,
`fetch_contract_data contract_address ""` fails with the error kind
`DataKeyNotFound` (the code has no `InvalidDataKey` variant). -/
theorem fetch_empty_key_data_key_not_found
    (a : String) (ha : a ≠ "") :
    fetch_contract_data a "" =
      Except.error InteractionError.DataKeyNotFound := by
  simp [fetch_contract_data, isEmpty_eq_false_of_ne a ha, empty_isEmpty]

/-- Witness for the amended C3 at a concrete non-empty address. -/
theorem fetch_empty_key_data_key_not_found_witness :
    fetch_contract_data "0xDEF" "" =
      Except.error InteractionError.DataKeyNotFound :=
  fetch_empty_key_data_key_not_found "0xDEF" (by decide)

/-- C4: for every function name, params list and gas limit, calling with an
empty contract address fails with `InvalidContractAddress`. -/
theorem call_empty_address_invalid_contract_address
    (fn : String) (ps : List String) (g : Nat) :
    call_contract_function "" fn ps g =
      Except.error InteractionError.InvalidContractAddress := by
  simp [call_contract_function, empty_isEmpty]

/-- C5: for every non-empty contract address, any params list and any gas
limit, calling with an empty function name fails with
`InvalidFunctionName`. -/
theorem call_empty_name_invalid_function_name
    (a : String) (ps : List String) (g : Nat) (ha : a ≠ "") :
    call_contract_function a "" ps g =
      Except.error InteractionError.InvalidFunctionName := by
  simp [call_contract_function, isEmpty_eq_false_of_ne a ha, empty_isEmpty]

/-- Witness for C5 at a concrete non-empty address. -/
theorem call_empty_name_invalid_function_name_witness :
    call_contract_function "0xABC" "" ["1"] 500 =
      Except.error InteractionError.InvalidFunctionName :=
  call_empty_name_invalid_function_name "0xABC" ["1"] 500 (by decide)

/-- C6: non-emptiness is enforced before any success: if
`call_contract_function` returns `Ok` then its contract address and function
name were non-empty, and if `fetch_contract_data` returns `Ok` then its
contract address and data key were non-empty. -/
theorem ok_implies_nonempty_inputs
    (a fn k s t : String) (ps : List String) (g : Nat) :
    (call_contract_function a fn ps g = Except.ok s → a ≠ "" ∧ fn ≠ "")
    ∧ (fetch_contract_data a k = Except.ok t → a ≠ "" ∧ k ≠ "") := by
  constructor
  · intro hok
    unfold call_contract_function at hok
    rcases ha : a.isEmpty with _ | _ <;> rcases hf : fn.isEmpty with _ | _ <;>
      simp_all [← String.isEmpty_iff, ha, hf]
  · intro hok
    unfold fetch_contract_data at hok
    rcases ha : a.isEmpty with _ | _ <;> rcases hk : k.isEmpty with _ | _ <;>
      simp_all [← String.isEmpty_iff, ha, hk]

/-- Witness for C6: the implications instantiated at concrete inputs. -/
theorem ok_implies_nonempty_inputs_witness :
    (call_contract_function "0xABC" "transfer" [] 100 =
        Except.ok "Function call executed successfully." →
      ("0xABC" : String) ≠ "" ∧ ("transfer" : String) ≠ "")
    ∧ (fetch_contract_data "0xABC" "balance" =
        Except.ok "Data fetched successfully." →
      ("0xABC" : String) ≠ "" ∧ ("balance" : String) ≠ "") :=
  ok_implies_nonempty_inputs "0xABC" "transfer" "balance"
    "Function call executed successfully." "Data fetched successfully." [] 100

/-- C7: both entry points are deterministic, side-effect-free functions of
their arguments: two invocations with equal inputs return equal `Result`
values, with no dependence on any external or on-chain state (the embedded
functions take no state argument at all). -/
theorem call_and_fetch_deterministic
    (a a' fn fn' k k' : String) (ps ps' : List String) (g g' : Nat)
    (ha : a = a') (hfn : fn = fn') (hk : k = k') (hps : ps = ps')
    (hg : g = g') :
    call_contract_function a fn ps g = call_contract_function a' fn' ps' g'
    ∧ fetch_contract_data a k = fetch_contract_data a' k' := by
  subst ha hfn hk hps hg
  exact ⟨rfl, rfl⟩

/-- Witness for C7 at concrete equal inputs. -/
theorem call_and_fetch_deterministic_witness :
    call_contract_function "0xABC" "transfer" ["3"] 21000 =
        call_contract_function "0xABC" "transfer" ["3"] 21000
    ∧ fetch_contract_data "0xABC" "owner" = fetch_contract_data "0xABC" "owner" :=
  call_and_fetch_deterministic "0xABC" "0xABC" "transfer" "transfer"
    "owner" "owner" ["3"] ["3"] 21000 21000 rfl rfl rfl rfl rfl

/-- C8: the contract-address check precedes the name/key check: with an
empty contract address and an empty function name (resp. data key), both
entry points return `InvalidContractAddress`, for any params and gas
limit. -/
theorem empty_address_checked_first (ps : List String) (g : Nat) :
    call_contract_function "" "" ps g =
        Except.error InteractionError.InvalidContractAddress
    ∧ fetch_contract_data "" "" =
        Except.error InteractionError.InvalidContractAddress := by
  exact ⟨rfl, rfl⟩

/-- C9: the result of `call_contract_function` does not depend on `_params`
or `gas_limit`: for fixed contract address and function name, every choice
of params list and gas limit yields the identical `Result` value. -/
theorem call_ignores_params_and_gas
    (a fn : String) (ps ps' : List String) (g g' : Nat) :
    call_contract_function a fn ps g = call_contract_function a fn ps' g' := by
  unfold call_contract_function
  rcases a.isEmpty with _ | _ <;> rcases fn.isEmpty with _ | _ <;> rfl

/-- C10: the error kind identifies the entry point and failing input:
`call_contract_function` never returns `DataKeyNotFound`, and
`fetch_contract_data` never returns `InvalidFunctionName`, for any string
inputs, params and gas limit. -/
theorem error_kind_identifies_entry_point
    (a fn k : String) (ps : List String) (g : Nat) :
    call_contract_function a fn ps g ≠
        Except.error InteractionError.DataKeyNotFound
    ∧ fetch_contract_data a k ≠
        Except.error InteractionError.InvalidFunctionName := by
  constructor
  · unfold call_contract_function
    rcases a.isEmpty with _ | _ <;> rcases fn.isEmpty with _ | _ <;> simp
  · unfold fetch_contract_data
    rcases a.isEmpty with _ | _ <;> rcases k.isEmpty with _ | _ <;> simp

end WasmifyRs
